import Mathlib

/-!
Shallow embedding of the KXN 8-bit stack virtual machine (src/vm.c, the
SDL2 platform dispatcher src/platforms/sdl2/platform_io.c, and the
assembler src/assembler.c).  Machine integers are modelled as `Nat` with
explicit `% 2^w` at every point where the C code performs an implicit
conversion to `uint8_t` / `uint16_t`; reads of `uint8_t` array cells carry
a `% 256` because the C cell type guarantees the value fits in a byte.
-/

namespace KXN

def VM_MEMORY_SIZE : Nat := 65536
def VM_STACK_TOP : Nat := 0xFFFF
def VM_DISPLAY_WIDTH : Nat := 320
def VM_DISPLAY_HEIGHT : Nat := 240

/-- `vm_error_t` from vm.h. -/
inductive VMError where
  | vm_ok
  | stack_overflow
  | stack_underflow
  | invalid_opcode
  | division_by_zero
  | invalid_address
  | halt
  | platform_io_err
  deriving DecidableEq, Repr

/-- `vm_t` from vm.h (platform-agnostic core). -/
structure VM where
  memory : Nat → Nat
  pc : Nat
  sp : Nat
  bp : Nat
  running : Bool
  error : VMError

/-- Pointwise array update, modelling `a[i] = v` on a `uint8_t` array
(the stored value is truncated to a byte). -/
def updMem (m : Nat → Nat) (a v : Nat) : Nat → Nat :=
  fun i => if i = a then v % 256 else m i

/-- `vm_push` from vm.c: `if (sp == 0) overflow; memory[sp--] = value;`
(write at the current `sp`, then decrement). -/
def vm_push (vm : VM) (value : Nat) : VM :=
  if vm.sp = 0 then
    { vm with error := VMError.stack_overflow }
  else
    { vm with memory := updMem vm.memory vm.sp value, sp := vm.sp - 1 }

/-- `vm_pop` from vm.c: `if (sp >= VM_STACK_TOP) underflow, return 0;
return memory[++sp];` (increment, then read at the new `sp`). -/
def vm_pop (vm : VM) : Nat × VM :=
  if VM_STACK_TOP ≤ vm.sp then
    (0, { vm with error := VMError.stack_underflow })
  else
    (vm.memory (vm.sp + 1) % 256, { vm with sp := vm.sp + 1 })

/-- `vm_read16` from vm.c: little-endian 16-bit read,
`memory[addr] | (memory[addr+1] << 8)`; the bytes occupy disjoint bit
ranges so the bitwise or is addition. -/
def vm_read16 (vm : VM) (addr : Nat) : Nat × VM :=
  if VM_MEMORY_SIZE - 1 ≤ addr then
    (0, { vm with error := VMError.invalid_address })
  else
    (vm.memory addr % 256 + (vm.memory (addr + 1) % 256) * 256, vm)

/-- `vm_write16` from vm.c: little-endian 16-bit write. -/
def vm_write16 (vm : VM) (addr value : Nat) : VM :=
  if VM_MEMORY_SIZE - 1 ≤ addr then
    { vm with error := VMError.invalid_address }
  else
    { vm with memory := updMem (updMem vm.memory addr (value % 256)) (addr + 1) (value / 256 % 256) }

/-- `init_vm` from vm.c: zeroed memory, `pc = 0`, `sp = bp = 0xFFFF`,
running, no error. -/
def init_vm : VM :=
  { memory := fun _ => 0
    pc := 0
    sp := VM_STACK_TOP
    bp := VM_STACK_TOP
    running := true
    error := VMError.vm_ok }

/-- `load_program` from vm.c, file I/O abstracted to the byte list read
from the file: `fread` overwrites the low prefix of memory with at most
`VM_MEMORY_SIZE` bytes. -/
def load_list (vm : VM) (img : List Nat) : VM :=
  { vm with memory := fun i =>
      if i < img.length ∧ i < VM_MEMORY_SIZE then img.getD i 0 % 256 else vm.memory i }

/-- `platform_io_error_t` from platform_io.h. -/
inductive PlatformIOError where
  | pio_ok
  | pio_invalid_operation
  deriving DecidableEq, Repr

/-- SDL events consumed by `platform_io_process_events`; external input is
modelled as data. -/
inductive SDLEvent where
  | quit
  | keydown (sym : Nat)
  | mouse (x y state : Nat)
  deriving DecidableEq, Repr

/-- `platform_io_context_t` from platform_io.c.  `pixels` is the ARGB
framebuffer indexed by `y * VM_DISPLAY_WIDTH + x`; `printed` records the
bytes the dispatcher writes to stdout (observable output of
`IO_PRINT_CHAR`). -/
structure PlatformIOContext where
  pixels : Nat → Nat
  last_key : Nat
  key_available : Bool
  mouse_x : Nat
  mouse_y : Nat
  mouse_buttons : Nat
  mouse_event : Bool
  waiting_for_input : Bool
  printed : List Nat

/-- `platform_io_init` (context part): everything zeroed. -/
def ctx_init : PlatformIOContext :=
  { pixels := fun _ => 0
    last_key := 0
    key_available := false
    mouse_x := 0
    mouse_y := 0
    mouse_buttons := 0
    mouse_event := false
    waiting_for_input := false
    printed := [] }

/-- `uint32_t` framebuffer cell update. -/
def updPix (m : Nat → Nat) (a v : Nat) : Nat → Nat :=
  fun i => if i = a then v % 4294967296 else m i

/-- `0xFF000000 | (c << 16) | (c << 8) | c` for a grey byte `c < 256`:
the four bytes occupy disjoint bit ranges so the or is addition. -/
def argb_of_gray (c : Nat) : Nat :=
  0xFF000000 + c * 65536 + c * 256 + c

/-- Loop body of `draw_line` (Bresenham) from platform_io.c.  The C
`while (true)` loop terminates after at most `dx + dy + 1` iterations
(until the endpoint is reached, every iteration moves `x0` one step
toward `x1` or `y0` one step toward `y1`); the fuel argument makes that
bound structural. -/
def draw_line_go : Nat → (Nat → Nat) → Int → Int → Int → Int → Int → Int → Int → Int → Int → Nat → (Nat → Nat)
  | 0, pxs, _, _, _, _, _, _, _, _, _, _ => pxs
  | fuel + 1, pxs, x0, y0, x1, y1, sx, sy, dx, dy, e, color =>
    let pxs :=
      if 0 ≤ x0 ∧ x0 < (VM_DISPLAY_WIDTH : Int) ∧ 0 ≤ y0 ∧ y0 < (VM_DISPLAY_HEIGHT : Int) then
        updPix pxs (y0 * VM_DISPLAY_WIDTH + x0).toNat color
      else pxs
    if x0 = x1 ∧ y0 = y1 then pxs
    else
      let e2 := 2 * e
      let e' := if e2 > -dy then e - dy else e
      let x0' := if e2 > -dy then x0 + sx else x0
      let e'' := if e2 < dx then e' + dx else e'
      let y0' := if e2 < dx then y0 + sy else y0
      draw_line_go fuel pxs x0' y0' x1 y1 sx sy dx dy e'' color

/-- `draw_line` from platform_io.c. -/
def draw_line (pxs : Nat → Nat) (x0 y0 x1 y1 : Int) (color : Nat) : Nat → Nat :=
  let dx : Int := (x1 - x0).natAbs
  let dy : Int := (y1 - y0).natAbs
  let sx : Int := if x0 < x1 then 1 else -1
  let sy : Int := if y0 < y1 then 1 else -1
  draw_line_go ((x1 - x0).natAbs + (y1 - y0).natAbs + 1) pxs x0 y0 x1 y1 sx sy dx dy (dx - dy) color

/-- The `IO_FILL_RECT` nested loops from platform_io.c:
rows `y ≤ py < min (y+h) 240`, columns `x ≤ px < min (x+w) 320`. -/
def fill_rect (pxs : Nat → Nat) (x y w h color : Nat) : Nat → Nat :=
  (List.range' y (min (y + h) VM_DISPLAY_HEIGHT - y)).foldl
    (fun acc py =>
      (List.range' x (min (x + w) VM_DISPLAY_WIDTH - x)).foldl
        (fun acc2 px => updPix acc2 (py * VM_DISPLAY_WIDTH + px) color) acc)
    pxs

/-- `handle_platform_io` from platform_io.c: dispatch on the 8-bit
operation id, mutating the engine stack and the context. -/
def handle_platform_op (vm : VM) (ctx : PlatformIOContext) (io_id : Nat) :
    PlatformIOError × VM × PlatformIOContext :=
  match io_id with
  | 0x00 =>
    (PlatformIOError.pio_ok, { vm with running := false }, ctx)
  | 0x01 =>
    let (ch, vm) := vm_pop vm
    (PlatformIOError.pio_ok, vm, { ctx with printed := ctx.printed ++ [ch] })
  | 0x02 =>
    if ctx.waiting_for_input = false then
      (PlatformIOError.pio_ok,
       { vm with pc := (vm.pc + 65535) % 65536 },
       { ctx with waiting_for_input := true })
    else if ctx.key_available then
      (PlatformIOError.pio_ok, vm_push vm ctx.last_key,
       { ctx with waiting_for_input := false, key_available := false })
    else
      (PlatformIOError.pio_ok, vm, ctx)
  | 0x10 =>
    let (color, vm) := vm_pop vm
    let (y, vm) := vm_pop vm
    let (x, vm) := vm_pop vm
    if x < VM_DISPLAY_WIDTH ∧ y < VM_DISPLAY_HEIGHT then
      (PlatformIOError.pio_ok, vm,
       { ctx with pixels := updPix ctx.pixels (y * VM_DISPLAY_WIDTH + x) (argb_of_gray color) })
    else
      (PlatformIOError.pio_ok, vm, ctx)
  | 0x11 =>
    let (color, vm) := vm_pop vm
    let (y2, vm) := vm_pop vm
    let (x2, vm) := vm_pop vm
    let (y1, vm) := vm_pop vm
    let (x1, vm) := vm_pop vm
    (PlatformIOError.pio_ok, vm,
     { ctx with pixels := draw_line ctx.pixels x1 y1 x2 y2 (argb_of_gray color) })
  | 0x12 =>
    let (color, vm) := vm_pop vm
    let (h, vm) := vm_pop vm
    let (w, vm) := vm_pop vm
    let (y, vm) := vm_pop vm
    let (x, vm) := vm_pop vm
    (PlatformIOError.pio_ok, vm,
     { ctx with pixels := fill_rect ctx.pixels x y w h (argb_of_gray color) })
  | 0x13 =>
    (PlatformIOError.pio_ok, vm, ctx)
  | 0x20 =>
    (PlatformIOError.pio_ok, vm_push vm (if ctx.key_available then 1 else 0), ctx)
  | 0x21 =>
    (PlatformIOError.pio_ok, vm_push vm ctx.last_key, { ctx with key_available := false })
  | 0x22 =>
    (PlatformIOError.pio_ok, vm_push vm (if ctx.mouse_event then 1 else 0), ctx)
  | 0x23 =>
    (PlatformIOError.pio_ok, vm_push (vm_push vm (ctx.mouse_x % 256)) (ctx.mouse_x / 256 % 256), ctx)
  | 0x24 =>
    (PlatformIOError.pio_ok, vm_push (vm_push vm (ctx.mouse_y % 256)) (ctx.mouse_y / 256 % 256), ctx)
  | 0x25 =>
    (PlatformIOError.pio_ok, vm_push vm ctx.mouse_buttons, { ctx with mouse_event := false })
  | _ =>
    (PlatformIOError.pio_invalid_operation, vm, ctx)

/-- `platform_io_process_events` from platform_io.c: fold the pending SDL
events into the context; `SDL_QUIT` returns `false` immediately. -/
def process_events : PlatformIOContext → List SDLEvent → Bool × PlatformIOContext
  | ctx, [] => (true, ctx)
  | ctx, e :: rest =>
    match e with
    | SDLEvent.quit => (false, ctx)
    | SDLEvent.keydown sym =>
      process_events { ctx with last_key := sym % 256, key_available := true } rest
    | SDLEvent.mouse x y state =>
      process_events
        { ctx with mouse_x := x / 2, mouse_y := y / 2,
                   mouse_buttons := state % 256, mouse_event := true } rest

/-- `platform_io_is_waiting_for_input` from platform_io.c. -/
def platform_waiting (ctx : PlatformIOContext) : Bool :=
  ctx.waiting_for_input && !ctx.key_available

/-- The `switch (opcode)` of `run_vm` in vm.c.  On entry `vm.pc` is the
address just past the opcode byte.  Binary operations pop `b` then `a`;
all results are truncated to a byte by `vm_push` (the `uint8_t`
parameter conversion), subtraction and negation use the explicit
`mod 2^8` form of the C wraparound.  In `SHL`/`SHR` the C operands are
promoted to 32-bit `int` before the shift, so a count ≥ 32 is undefined
behaviour in C (C99 6.5.7p3); the reference platform masks the shift
count modulo 32, which the `% 32` here makes explicit. -/
def vm_dispatch (vm : VM) (ctx : PlatformIOContext) (opcode : Nat) :
    VM × PlatformIOContext :=
  match opcode with
  | 0x00 => (vm, ctx)
  | 0x01 => ({ vm with running := false, error := VMError.halt }, ctx)
  | 0x02 =>
    let value := vm.memory vm.pc % 256
    let vm := { vm with pc := (vm.pc + 1) % 65536 }
    (vm_push vm value, ctx)
  | 0x03 => ((vm_pop vm).2, ctx)
  | 0x04 =>
    let (value, vm) := vm_pop vm
    (vm_push (vm_push vm value) value, ctx)
  | 0x05 =>
    let (a, vm) := vm_pop vm
    let (b, vm) := vm_pop vm
    (vm_push (vm_push vm a) b, ctx)
  | 0x06 =>
    let (b, vm) := vm_pop vm
    let (a, vm) := vm_pop vm
    (vm_push vm (a + b), ctx)
  | 0x07 =>
    let (b, vm) := vm_pop vm
    let (a, vm) := vm_pop vm
    (vm_push vm (a + 256 - b), ctx)
  | 0x08 =>
    let (b, vm) := vm_pop vm
    let (a, vm) := vm_pop vm
    (vm_push vm (a * b), ctx)
  | 0x09 =>
    let (b, vm) := vm_pop vm
    let (a, vm) := vm_pop vm
    if b = 0 then ({ vm with error := VMError.division_by_zero }, ctx)
    else (vm_push vm (a / b), ctx)
  | 0x0A =>
    let (b, vm) := vm_pop vm
    let (a, vm) := vm_pop vm
    if b = 0 then ({ vm with error := VMError.division_by_zero }, ctx)
    else (vm_push vm (a % b), ctx)
  | 0x0B =>
    let (a, vm) := vm_pop vm
    (vm_push vm (256 - a), ctx)
  | 0x0C =>
    let (b, vm) := vm_pop vm
    let (a, vm) := vm_pop vm
    (vm_push vm (Nat.land a b), ctx)
  | 0x0D =>
    let (b, vm) := vm_pop vm
    let (a, vm) := vm_pop vm
    (vm_push vm (Nat.lor a b), ctx)
  | 0x0E =>
    let (b, vm) := vm_pop vm
    let (a, vm) := vm_pop vm
    (vm_push vm (Nat.xor a b), ctx)
  | 0x0F =>
    let (a, vm) := vm_pop vm
    (vm_push vm (255 - a), ctx)
  | 0x10 =>
    let (b, vm) := vm_pop vm
    let (a, vm) := vm_pop vm
    (vm_push vm (a <<< (b % 32)), ctx)
  | 0x11 =>
    let (b, vm) := vm_pop vm
    let (a, vm) := vm_pop vm
    (vm_push vm (a >>> (b % 32)), ctx)
  | 0x12 =>
    let (b, vm) := vm_pop vm
    let (a, vm) := vm_pop vm
    (vm_push vm (if a = b then 1 else 0), ctx)
  | 0x13 =>
    let (b, vm) := vm_pop vm
    let (a, vm) := vm_pop vm
    (vm_push vm (if a ≠ b then 1 else 0), ctx)
  | 0x14 =>
    let (b, vm) := vm_pop vm
    let (a, vm) := vm_pop vm
    (vm_push vm (if b < a then 1 else 0), ctx)
  | 0x15 =>
    let (b, vm) := vm_pop vm
    let (a, vm) := vm_pop vm
    (vm_push vm (if a < b then 1 else 0), ctx)
  | 0x16 =>
    let (b, vm) := vm_pop vm
    let (a, vm) := vm_pop vm
    (vm_push vm (if b ≤ a then 1 else 0), ctx)
  | 0x17 =>
    let (b, vm) := vm_pop vm
    let (a, vm) := vm_pop vm
    (vm_push vm (if a ≤ b then 1 else 0), ctx)
  | 0x18 =>
    let (addr, vm) := vm_read16 vm vm.pc
    let vm := { vm with pc := (vm.pc + 2) % 65536 }
    if addr < VM_MEMORY_SIZE then (vm_push vm (vm.memory addr % 256), ctx)
    else ({ vm with error := VMError.invalid_address }, ctx)
  | 0x19 =>
    let (addr, vm) := vm_read16 vm vm.pc
    let vm := { vm with pc := (vm.pc + 2) % 65536 }
    let (value, vm) := vm_pop vm
    if addr < VM_MEMORY_SIZE then ({ vm with memory := updMem vm.memory addr value }, ctx)
    else ({ vm with error := VMError.invalid_address }, ctx)
  | 0x1A =>
    let (lo, vm) := vm_pop vm
    let (hi, vm) := vm_pop vm
    let addr := lo + hi * 256
    if addr < VM_MEMORY_SIZE then (vm_push vm (vm.memory addr % 256), ctx)
    else ({ vm with error := VMError.invalid_address }, ctx)
  | 0x1B =>
    let (lo, vm) := vm_pop vm
    let (hi, vm) := vm_pop vm
    let addr := lo + hi * 256
    let (value, vm) := vm_pop vm
    if addr < VM_MEMORY_SIZE then ({ vm with memory := updMem vm.memory addr value }, ctx)
    else ({ vm with error := VMError.invalid_address }, ctx)
  | 0x1C =>
    let (addr, vm) := vm_read16 vm vm.pc
    ({ vm with pc := addr }, ctx)
  | 0x1D =>
    let (addr, vm) := vm_read16 vm vm.pc
    let vm := { vm with pc := (vm.pc + 2) % 65536 }
    let (value, vm) := vm_pop vm
    if value = 0 then ({ vm with pc := addr }, ctx) else (vm, ctx)
  | 0x1E =>
    let (addr, vm) := vm_read16 vm vm.pc
    let vm := { vm with pc := (vm.pc + 2) % 65536 }
    let (value, vm) := vm_pop vm
    if value ≠ 0 then ({ vm with pc := addr }, ctx) else (vm, ctx)
  | 0x1F =>
    let (addr, vm) := vm_read16 vm vm.pc
    let vm := { vm with pc := (vm.pc + 2) % 65536 }
    let vm := vm_push vm (vm.pc % 256)
    let vm := vm_push vm (vm.pc / 256 % 256)
    ({ vm with pc := addr }, ctx)
  | 0x20 =>
    let (hi, vm) := vm_pop vm
    let (lo, vm) := vm_pop vm
    ({ vm with pc := hi * 256 + lo }, ctx)
  | 0x21 =>
    let io_id := vm.memory vm.pc % 256
    let vm := { vm with pc := (vm.pc + 1) % 65536 }
    let (io_err, vm, ctx) := handle_platform_op vm ctx io_id
    if io_err ≠ PlatformIOError.pio_ok then
      if io_id = 0x00 then ({ vm with error := VMError.halt }, ctx)
      else ({ vm with error := VMError.platform_io_err }, ctx)
    else (vm, ctx)
  | _ => ({ vm with error := VMError.invalid_opcode }, ctx)

/-- Fetch and dispatch one instruction (the body of the `run_vm` loop in
vm.c after the bounds check): read the opcode at `pc`, advance `pc`,
dispatch. -/
def vm_exec_instr (vm : VM) (ctx : PlatformIOContext) : VM × PlatformIOContext :=
  let opcode := vm.memory vm.pc % 256
  let vm := { vm with pc := (vm.pc + 1) % 65536 }
  vm_dispatch vm ctx opcode

/-- `run_vm` from vm.c.  `trace i` is the list of SDL events pending at
loop iteration `i` (external input as data); `fuel` bounds the number of
loop iterations, modelling a finite prefix of the C `while` loop — every
terminating C run is reproduced exactly by a large enough fuel. -/
def run_vm_loop :
    Nat → (Nat → List SDLEvent) → Nat → VM → PlatformIOContext → VM × PlatformIOContext
  | 0, _, _, vm, ctx => (vm, ctx)
  | fuel + 1, trace, i, vm, ctx =>
    if vm.running = true ∧ vm.error = VMError.vm_ok then
      match process_events ctx (trace i) with
      | (false, ctx1) => ({ vm with running := false }, ctx1)
      | (true, ctx1) =>
        if platform_waiting ctx1 then
          run_vm_loop fuel trace (i + 1) vm ctx1
        else if VM_MEMORY_SIZE ≤ vm.pc then
          ({ vm with error := VMError.invalid_address }, ctx1)
        else
          let st := vm_exec_instr vm ctx1
          run_vm_loop fuel trace (i + 1) st.1 st.2
    else (vm, ctx)

/-- The event trace of a run during which no SDL events arrive. -/
def no_events : Nat → List SDLEvent := fun _ => []

/-- `main` from vm.c, file I/O abstracted to the image byte list: after a
successful initialization and load, the process prints a diagnostic for
the run result and returns 0 regardless of that result; the only nonzero
exits happen before the run (usage, init or load failure — `load_program`
fails exactly when zero bytes are read). -/
def vm_main_exit (fuel : Nat) (trace : Nat → List SDLEvent) (img : List Nat) : Nat :=
  if img.length = 0 then 1
  else
    let vm := load_list init_vm img
    let _r := run_vm_loop fuel trace 0 vm ctx_init
    0

/-! ### Assembler (src/assembler.c) -/

def MAX_LABELS : Nat := 100

/-- The assembler's process-wide state: symbol table, reference list,
output buffer and write cursor. -/
structure AsmState where
  labels : List (String × Nat)
  label_refs : List (String × Nat)
  output : Nat → Nat
  output_pos : Nat

def asm_init : AsmState :=
  { labels := [], label_refs := [], output := fun _ => 0, output_pos := 0 }

/-- `emit_byte` from assembler.c. -/
def emit_byte (st : AsmState) (b : Nat) : AsmState :=
  if st.output_pos < VM_MEMORY_SIZE then
    { st with output := updMem st.output st.output_pos b, output_pos := st.output_pos + 1 }
  else st

/-- `emit_word` from assembler.c: low byte first. -/
def emit_word (st : AsmState) (w : Nat) : AsmState :=
  emit_byte (emit_byte st (w % 256)) (w / 256 % 256)

/-- `find_label` from assembler.c: first entry with a matching name. -/
def find_label (st : AsmState) (name : String) : Option Nat :=
  (st.labels.find? (fun l => l.1 == name)).map (fun l => l.2)

/-- `add_label` from assembler.c. -/
def add_label (st : AsmState) (name : String) (addr : Nat) : AsmState :=
  if st.labels.length < MAX_LABELS then { st with labels := st.labels ++ [(name, addr)] }
  else st

/-- `add_label_ref` from assembler.c. -/
def add_label_ref (st : AsmState) (name : String) (patch_location : Nat) : AsmState :=
  if st.label_refs.length < MAX_LABELS then
    { st with label_refs := st.label_refs ++ [(name, patch_location)] }
  else st

/-- `isspace` on the characters that can occur in a text line. -/
def is_space_char (c : Char) : Bool :=
  c == ' ' || c == '\t' || c == '\n' || c == '\r'

/-- ASCII `isalpha`. -/
def is_alpha_char (c : Char) : Bool :=
  (65 ≤ c.toNat && c.toNat ≤ 90) || (97 ≤ c.toNat && c.toNat ≤ 122)

/-- ASCII `toupper`. -/
def to_upper_char (c : Char) : Char :=
  if 97 ≤ c.toNat && c.toNat ≤ 122 then Char.ofNat (c.toNat - 32) else c

/-- `trim_whitespace` from assembler.c. -/
def trim_chars (s : List Char) : List Char :=
  ((s.dropWhile is_space_char).reverse.dropWhile is_space_char).reverse

/-- `strtok` with delimiters space and tab: maximal runs of
non-delimiter characters. -/
def split_tokens (s : List Char) : List (List Char) :=
  ((s.map (fun c => if c = '\t' then ' ' else c)).splitOn ' ').filter (fun t => t ≠ [])

/-- `strchr(line, ':')`: split at the first colon, when present. -/
def split_at_colon : List Char → Option (List Char × List Char)
  | [] => none
  | c :: rest =>
    if c = ':' then some ([], rest)
    else
      match split_at_colon rest with
      | some (b, a) => some (c :: b, a)
      | none => none

/-- Value of one digit character in the given base. -/
def digit_val (base : Nat) (c : Char) : Option Nat :=
  let n := c.toNat
  if 48 ≤ n ∧ n ≤ 57 ∧ n - 48 < base then some (n - 48)
  else if 97 ≤ n ∧ n ≤ 122 ∧ n - 87 < base then some (n - 87)
  else if 65 ≤ n ∧ n ≤ 90 ∧ n - 55 < base then some (n - 55)
  else none

/-- Greedy digit parse, stopping at the first invalid character
(`strtol` on an already-trimmed token). -/
def parse_digits (base : Nat) : List Char → Nat → Nat
  | [], acc => acc
  | c :: rest, acc =>
    match digit_val base c with
    | some d => parse_digits base rest (acc * base + d)
    | none => acc

/-- `parse_number` from assembler.c: base 16 on a `0x` prefix, else
base 10; yields 0 when no digits are present. -/
def parse_number (s : List Char) : Nat :=
  match s with
  | '0' :: 'x' :: rest => parse_digits 16 rest 0
  | _ => parse_digits 10 s 0

/-- Operand handling for the 1-byte-immediate mnemonics (`PUSH`, `SYS`):
emit the parsed byte when an operand token is present. -/
def asm_operand_byte (st : AsmState) (rest : List (List Char)) : AsmState :=
  match rest with
  | [] => st
  | t :: _ => emit_byte st (parse_number t)

/-- Operand handling for the 2-byte-immediate mnemonics: a token whose
first character is a letter records a patch request at the current
output position and emits a two-byte placeholder, otherwise the parsed
address is emitted little-endian. -/
def asm_operand_word (st : AsmState) (rest : List (List Char)) : AsmState :=
  match rest with
  | [] => st
  | t :: _ =>
    if is_alpha_char (t.headD ' ') then
      emit_word (add_label_ref st (String.mk t) st.output_pos) 0
    else
      emit_word st (parse_number t)

/-- The mnemonic dispatch chain of `assemble_file`; the first token is
uppercased in place, operand tokens are not.  An unknown mnemonic only
prints a warning and emits nothing. -/
def asm_instr (st : AsmState) (toks : List (List Char)) : AsmState :=
  match toks with
  | [] => st
  | tok :: rest =>
    let m := String.mk (tok.map to_upper_char)
    if m = "NOP" then emit_byte st 0x00
    else if m = "HALT" then emit_byte st 0x01
    else if m = "PUSH" then asm_operand_byte (emit_byte st 0x02) rest
    else if m = "POP" then emit_byte st 0x03
    else if m = "DUP" then emit_byte st 0x04
    else if m = "SWAP" then emit_byte st 0x05
    else if m = "ADD" then emit_byte st 0x06
    else if m = "SUB" then emit_byte st 0x07
    else if m = "MUL" then emit_byte st 0x08
    else if m = "DIV" then emit_byte st 0x09
    else if m = "MOD" then emit_byte st 0x0A
    else if m = "NEG" then emit_byte st 0x0B
    else if m = "AND" then emit_byte st 0x0C
    else if m = "OR" then emit_byte st 0x0D
    else if m = "XOR" then emit_byte st 0x0E
    else if m = "NOT" then emit_byte st 0x0F
    else if m = "SHL" then emit_byte st 0x10
    else if m = "SHR" then emit_byte st 0x11
    else if m = "EQ" then emit_byte st 0x12
    else if m = "NEQ" then emit_byte st 0x13
    else if m = "GT" then emit_byte st 0x14
    else if m = "LT" then emit_byte st 0x15
    else if m = "GTE" then emit_byte st 0x16
    else if m = "LTE" then emit_byte st 0x17
    else if m = "LOAD" then asm_operand_word (emit_byte st 0x18) rest
    else if m = "STORE" then asm_operand_word (emit_byte st 0x19) rest
    else if m = "LOAD_IND" then emit_byte st 0x1A
    else if m = "STORE_IND" then emit_byte st 0x1B
    else if m = "JMP" then asm_operand_word (emit_byte st 0x1C) rest
    else if m = "JZ" then asm_operand_word (emit_byte st 0x1D) rest
    else if m = "JNZ" then asm_operand_word (emit_byte st 0x1E) rest
    else if m = "CALL" then asm_operand_word (emit_byte st 0x1F) rest
    else if m = "RET" then emit_byte st 0x20
    else if m = "SYS" then asm_operand_byte (emit_byte st 0x21) rest
    else st

/-- One line of the `assemble_file` loop: trim, skip blanks and `;`
comments, handle a leading label definition, then assemble the
remaining instruction text. -/
def asm_line (st : AsmState) (line0 : List Char) : AsmState :=
  let line := trim_chars line0
  if line = [] then st
  else if line.headD ' ' = ';' then st
  else
    match split_at_colon line with
    | some (bef, aft) =>
      let st := add_label st (String.mk (trim_chars bef)) st.output_pos
      let instr := trim_chars aft
      if instr = [] then st
      else if instr.headD ' ' = ';' then st
      else asm_instr st (split_tokens instr)
    | none => asm_instr st (split_tokens line)

/-- Pass one of `assemble_file` over the lines read from the input. -/
def assemble_lines (lines : List (List Char)) : AsmState :=
  lines.foldl asm_line asm_init

/-- `patch_labels` from assembler.c: overwrite each recorded placeholder
with the resolved address, low byte first; an unresolved name is
reported (the returned list models the printed diagnostics) and its
placeholder is left as emitted. -/
def patch_labels (st : AsmState) : (Nat → Nat) × List String :=
  st.label_refs.foldl
    (fun acc r =>
      match find_label st r.1 with
      | some addr =>
        (updMem (updMem acc.1 r.2 (addr % 256)) (r.2 + 1) (addr / 256 % 256), acc.2)
      | none => (acc.1, acc.2 ++ [r.1]))
    (st.output, [])

/-- `main` from assembler.c with both files opening successfully, file
I/O abstracted: `assemble_file` then returns 0 unconditionally (its only
nonzero return is a failed `fopen`), so `main` writes the first
`output_pos` bytes of the patched buffer and exits 0 — also when
`patch_labels` reported unresolved labels.  Result: written bytes,
reported unresolved names, exit code. -/
def kxasm_run (lines : List (List Char)) : List Nat × List String × Nat :=
  let st := assemble_lines lines
  let patched := patch_labels st
  ((List.range st.output_pos).map patched.1, patched.2, 0)

/-- The byte the next `vm_pop` would yield: the top of the operand
stack. -/
def vm_top (vm : VM) : Nat :=
  vm.memory (vm.sp + 1) % 256

/-- `n` consecutive `vm_push` calls of the same byte — the "sequence of
pushes with no intervening pops" of the stack-overflow boundary
behaviour. -/
def push_repeat (v : Nat) : Nat → VM → VM
  | 0, vm => vm
  | n + 1, vm => vm_push (push_repeat v n vm) v

end KXN

namespace KXN

/-! ### Helper lemmas -/

theorem vm_pop_ok (s : VM) (h : s.sp < VM_STACK_TOP) :
    vm_pop s = (s.memory (s.sp + 1) % 256, { s with sp := s.sp + 1 }) := by
  unfold vm_pop
  rw [if_neg (by omega)]

theorem vm_pop_underflow (s : VM) (h : VM_STACK_TOP ≤ s.sp) :
    vm_pop s = (0, { s with error := VMError.stack_underflow }) := by
  unfold vm_pop
  rw [if_pos h]

theorem vm_push_ok (s : VM) (v : Nat) (h : s.sp ≠ 0) :
    vm_push s v = { s with memory := updMem s.memory s.sp v, sp := s.sp - 1 } := by
  unfold vm_push
  rw [if_neg h]

theorem vm_push_overflow (s : VM) (v : Nat) (h : s.sp = 0) :
    vm_push s v = { s with error := VMError.stack_overflow } := by
  unfold vm_push
  rw [if_pos h]

theorem vm_read16_ok (s : VM) (addr : Nat) (h : addr < VM_MEMORY_SIZE - 1) :
    vm_read16 s addr = (s.memory addr % 256 + s.memory (addr + 1) % 256 * 256, s) := by
  unfold vm_read16
  rw [if_neg (by omega)]

theorem updMem_same (m : Nat → Nat) (a v : Nat) : updMem m a v a = v % 256 := by
  unfold updMem
  rw [if_pos rfl]

theorem updMem_other (m : Nat → Nat) (a v i : Nat) (h : i ≠ a) : updMem m a v i = m i := by
  unfold updMem
  rw [if_neg h]

theorem run_vm_loop_stop (fuel : Nat) (trace : Nat → List SDLEvent) (i : Nat) (vm : VM)
    (ctx : PlatformIOContext) (h : ¬(vm.running = true ∧ vm.error = VMError.vm_ok)) :
    run_vm_loop fuel trace i vm ctx = (vm, ctx) := by
  cases fuel with
  | zero => rfl
  | succ n => rw [run_vm_loop, if_neg h]

theorem run_vm_loop_step (fuel : Nat) (trace : Nat → List SDLEvent) (i : Nat) (vm : VM)
    (ctx : PlatformIOContext) (h1 : vm.running = true) (h2 : vm.error = VMError.vm_ok)
    (h3 : trace i = []) (h4 : platform_waiting ctx = false) (h5 : vm.pc < 65536) :
    run_vm_loop (fuel + 1) trace i vm ctx
      = run_vm_loop fuel trace (i + 1) (vm_exec_instr vm ctx).1 (vm_exec_instr vm ctx).2 := by
  have h6 : ¬ (VM_MEMORY_SIZE ≤ vm.pc) := Nat.not_le.mpr h5
  rw [run_vm_loop, if_pos ⟨h1, h2⟩, h3]
  show (match process_events ctx [] with
        | (false, ctx1) => ({ vm with running := false }, ctx1)
        | (true, ctx1) =>
          if platform_waiting ctx1 then run_vm_loop fuel trace (i + 1) vm ctx1
          else if VM_MEMORY_SIZE ≤ vm.pc then ({ vm with error := VMError.invalid_address }, ctx1)
          else run_vm_loop fuel trace (i + 1) (vm_exec_instr vm ctx1).1 (vm_exec_instr vm ctx1).2) = _
  rw [show process_events ctx [] = (true, ctx) from rfl]
  dsimp only
  rw [h4]
  simp only [Bool.false_eq_true, if_false]
  rw [if_neg h6]

theorem patch_fold_mono (st : AsmState) (l : List (String × Nat))
    (acc : (Nat → Nat) × List String) (x : String) (hx : x ∈ acc.2) :
    x ∈ (l.foldl
      (fun acc r =>
        match find_label st r.1 with
        | some addr =>
          (updMem (updMem acc.1 r.2 (addr % 256)) (r.2 + 1) (addr / 256 % 256), acc.2)
        | none => (acc.1, acc.2 ++ [r.1])) acc).2 := by
  induction l generalizing acc with
  | nil => exact hx
  | cons hd tl ih =>
    rw [List.foldl_cons]
    apply ih
    cases hfl : find_label st hd.1 with
    | some addr => simpa [hfl] using hx
    | none => simp only [hfl]; exact List.mem_append_left _ hx

theorem patch_fold_mem (st : AsmState) (l : List (String × Nat))
    (acc : (Nat → Nat) × List String) (r : String × Nat) (hr : r ∈ l)
    (hnone : find_label st r.1 = none) :
    r.1 ∈ (l.foldl
      (fun acc r =>
        match find_label st r.1 with
        | some addr =>
          (updMem (updMem acc.1 r.2 (addr % 256)) (r.2 + 1) (addr / 256 % 256), acc.2)
        | none => (acc.1, acc.2 ++ [r.1])) acc).2 := by
  induction l generalizing acc with
  | nil => cases hr
  | cons hd tl ih =>
    rw [List.foldl_cons]
    rcases List.mem_cons.mp hr with heq | htl
    · subst heq
      apply patch_fold_mono
      simp only [hnone]
      exact List.mem_append_right _ (List.mem_singleton.mpr rfl)
    · exact ih _ htl

/-! ### Claims -/

/-- C2 (code_bug): the blocking-read rewind.  On the failing input — the
2-byte instruction `IO 0x02` with its opcode byte at address 0 and no
key available — the dispatcher sets the waiting flag but rewinds `PC` by
only one of the two consumed bytes, leaving `PC = 1` (the operand byte),
not 0 as the claim requires; consequently once a key arrives the engine
fetches the operand byte `0x02` as an opcode (`PUSH`), pushes the
following byte `0x01` instead of the key, and the waiting flag is never
cleared. -/
theorem read_char_rewind_lands_on_operand :
    ((run_vm_loop 1 no_events 0 (load_list init_vm [0x21, 0x02, 0x01]) ctx_init).1.pc = 1
      ∧ (run_vm_loop 1 no_events 0 (load_list init_vm [0x21, 0x02, 0x01]) ctx_init).2.waiting_for_input = true
      ∧ (run_vm_loop 1 no_events 0 (load_list init_vm [0x21, 0x02, 0x01]) ctx_init).1.error = VMError.vm_ok)
    ∧ ((run_vm_loop 2 (fun i => if i = 1 then [SDLEvent.keydown 65] else []) 0
          (load_list init_vm [0x21, 0x02, 0x01]) ctx_init).1.pc = 3
      ∧ (run_vm_loop 2 (fun i => if i = 1 then [SDLEvent.keydown 65] else []) 0
          (load_list init_vm [0x21, 0x02, 0x01]) ctx_init).1.sp = 65534
      ∧ vm_top (run_vm_loop 2 (fun i => if i = 1 then [SDLEvent.keydown 65] else []) 0
          (load_list init_vm [0x21, 0x02, 0x01]) ctx_init).1 = 1
      ∧ (run_vm_loop 2 (fun i => if i = 1 then [SDLEvent.keydown 65] else []) 0
          (load_list init_vm [0x21, 0x02, 0x01]) ctx_init).2.waiting_for_input = true) :=
  ⟨⟨rfl, rfl, rfl⟩, ⟨rfl, rfl, rfl, rfl⟩⟩

/-- C3 (counterexample): `vm_push` writes at the *current* `SP` and then
decrements (`memory[sp--] = value`).  From the initial state
(`SP = 0xFFFF`), pushing 42 leaves the byte at `0xFFFF` and
`SP = 0xFFFE`; the claim's `memory[s-1] = v` would put 42 at `0xFFFE`,
which instead still holds 0. -/
theorem push_writes_before_decrement :
    (vm_push init_vm 42).sp = 65534
      ∧ (vm_push init_vm 42).memory 65534 = 0
      ∧ (vm_push init_vm 42).memory 65535 = 42 :=
  ⟨rfl, rfl, rfl⟩

/-- C3 (amended): a successful push with `SP = s ≠ 0` writes `v` at `s`
and then sets `SP = s - 1` (so `SP` holds the address of the next free
slot, one below the most recently pushed byte, and is `0xFFFF` when the
stack is empty); a successful pop with `SP = s < 0xFFFF` reads
`memory[s+1]` and sets `SP = s + 1`. -/
theorem push_pop_discipline (s : VM) (v : Nat) :
    (s.sp ≠ 0 → v < 256 →
      (vm_push s v).memory s.sp = v ∧ (vm_push s v).sp = s.sp - 1
        ∧ (vm_push s v).error = s.error)
    ∧ (s.sp < VM_STACK_TOP →
        (vm_pop s).1 = s.memory (s.sp + 1) % 256 ∧ (vm_pop s).2.sp = s.sp + 1
          ∧ (vm_pop s).2.error = s.error)
    ∧ init_vm.sp = VM_STACK_TOP := by
  refine ⟨fun h hv => ?_, fun h => ?_, rfl⟩
  · rw [vm_push_ok s v h]
    refine ⟨?_, rfl, rfl⟩
    dsimp only
    rw [updMem_same, Nat.mod_eq_of_lt hv]
  · rw [vm_pop_ok s h]
    exact ⟨rfl, rfl, rfl⟩

/-- C3 (witness): the amended discipline at a concrete state with one
byte already pushed. -/
theorem push_pop_discipline_witness :
    (vm_push (vm_push init_vm 7) 42).memory 65534 = 42
      ∧ (vm_pop (vm_push init_vm 7)).1 = 7 := by
  have h := push_pop_discipline (vm_push init_vm 7) 42
  exact ⟨(h.1 (by decide) (by decide)).1, (h.2.1 (by decide)).1⟩

/-- C5 (counterexample): assembling the single line `JMP missing`, whose
label is never defined, reports the unresolved label and still writes
the three bytes `1C 00 00` (opcode plus placeholder) — but the process
exit code is 0, not the non-zero code the claim requires
(`assemble_file` returns 0 whenever the input file opens, and `main`
then writes the output and returns 0). -/
theorem kxasm_unresolved_exit_zero :
    (kxasm_run [("JMP missing".toList)]).2.2 = 0
      ∧ (kxasm_run [("JMP missing".toList)]).2.1 = ["missing"]
      ∧ (kxasm_run [("JMP missing".toList)]).1 = [0x1C, 0, 0] :=
  ⟨rfl, rfl, rfl⟩

/-- C5 (amended): on any input that opens successfully the assembler
exits 0 — also when label references are unresolved; every reference
whose label is undefined is reported, and the output bytes (including
the placeholders) are still written in full. -/
theorem kxasm_reports_but_exits_zero (lines : List (List Char)) :
    (kxasm_run lines).2.2 = 0
    ∧ (kxasm_run lines).2.1 = (patch_labels (assemble_lines lines)).2
    ∧ (∀ r ∈ (assemble_lines lines).label_refs,
        find_label (assemble_lines lines) r.1 = none →
          r.1 ∈ (patch_labels (assemble_lines lines)).2)
    ∧ (kxasm_run lines).1.length = (assemble_lines lines).output_pos := by
  refine ⟨rfl, rfl, fun r hr hnone => ?_, by simp [kxasm_run]⟩
  unfold patch_labels
  exact patch_fold_mem _ _ _ r hr hnone

/-- C5 (witness): the amended behaviour at the concrete input
`JMP missing`. -/
theorem kxasm_reports_but_exits_zero_witness :
    (kxasm_run [("JMP missing".toList)]).2.2 = 0
      ∧ "missing" ∈ (patch_labels (assemble_lines [("JMP missing".toList)])).2 := by
  have h := kxasm_reports_but_exits_zero [("JMP missing".toList)]
  exact ⟨h.1, h.2.2.1 ("missing", 1) (by decide) (by decide)⟩

/-- C6 (counterexample): the engine's `main` returns 0 after the run
regardless of the run result.  The image `PUSH 5; PUSH 0; DIV` ends the
run with `DIVISION_BY_ZERO`, yet the process exit code is 0, not the 1
the claim requires. -/
theorem vm_fault_exit_zero :
    (run_vm_loop 10 no_events 0 (load_list init_vm [2, 5, 2, 0, 9]) ctx_init).1.error
        = VMError.division_by_zero
      ∧ vm_main_exit 10 no_events [2, 5, 2, 0, 9] = 0 :=
  ⟨rfl, rfl⟩

/-- C6 (amended): once a non-empty image is loaded the engine's process
exit code is 0 however the run ends (clean `HALT`, host shutdown, or any
fault); the exit code 1 occurs only before the run, e.g. when zero bytes
are read from the image file. -/
theorem vm_main_exit_behaviour (fuel : Nat) (trace : Nat → List SDLEvent) (img : List Nat) :
    (img ≠ [] → vm_main_exit fuel trace img = 0)
      ∧ vm_main_exit fuel trace [] = 1 := by
  refine ⟨fun h => ?_, rfl⟩
  unfold vm_main_exit
  rw [if_neg (by simpa using h)]

/-- C6 (witness): the amended behaviour at the division-by-zero image
and at the empty image. -/
theorem vm_main_exit_behaviour_witness :
    vm_main_exit 10 no_events [2, 5, 2, 0, 9] = 0
      ∧ vm_main_exit 10 no_events [] = 1 := by
  have h := vm_main_exit_behaviour 10 no_events [2, 5, 2, 0, 9]
  exact ⟨h.1 (by decide), h.2⟩

theorem push_repeat_spec (v : Nat) : ∀ k, k ≤ 65535 →
    (push_repeat v k init_vm).sp = 65535 - k
      ∧ (push_repeat v k init_vm).error = VMError.vm_ok := by
  intro k
  induction k with
  | zero => exact fun _ => ⟨rfl, rfl⟩
  | succ n ih =>
    intro h
    obtain ⟨hsp, herr⟩ := ih (by omega)
    rw [push_repeat, vm_push_ok _ _ (by rw [hsp]; omega)]
    refine ⟨?_, herr⟩
    dsimp only
    rw [hsp]
    omega

/-- C4 (counterexample): from the initial state, 65 535 pushes leave the
engine error-free, and the 65 536th push — not the 65 537th — faults
with `STACK_OVERFLOW` (the stack slots are `0x0001..0xFFFF`; address 0
is never used because a push finding `SP = 0` faults first). -/
theorem push_65536_overflow :
    (push_repeat 0 65535 init_vm).error = VMError.vm_ok
      ∧ (push_repeat 0 65536 init_vm).error = VMError.stack_overflow := by
  obtain ⟨hsp, herr⟩ := push_repeat_spec 0 65535 (by omega)
  refine ⟨herr, ?_⟩
  rw [show (65536 : Nat) = 65535 + 1 from rfl, push_repeat,
    vm_push_overflow _ _ (by rw [hsp])]

/-- C4 (amended): starting from the initial state (`SP = 0xFFFF`), a
sequence of pushes with no intervening pops succeeds for the first
65 535 pushes and faults with `STACK_OVERFLOW` exactly on the 65 536th;
a push faults if and only if `SP = 0` at the moment of the push. -/
theorem push_overflow_boundary (v k : Nat) (hk : k ≤ 65535) (s : VM) :
    (push_repeat v k init_vm).error = VMError.vm_ok
      ∧ (push_repeat v k init_vm).sp = 65535 - k
      ∧ (push_repeat v 65536 init_vm).error = VMError.stack_overflow
      ∧ (s.error = VMError.vm_ok →
          ((vm_push s v).error = VMError.stack_overflow ↔ s.sp = 0)) := by
  obtain ⟨hsp, herr⟩ := push_repeat_spec v k hk
  obtain ⟨hsp65, herr65⟩ := push_repeat_spec v 65535 (by omega)
  refine ⟨herr, hsp, ?_, fun hok => ⟨fun hov => ?_, fun h0 => ?_⟩⟩
  · rw [show (65536 : Nat) = 65535 + 1 from rfl, push_repeat,
      vm_push_overflow _ _ (by rw [hsp65])]
  · by_cases h0 : s.sp = 0
    · exact h0
    · exfalso
      rw [vm_push_ok _ _ h0] at hov
      dsimp only at hov
      rw [hok] at hov
      exact absurd hov (by decide)
  · rw [vm_push_overflow _ _ h0]

/-- C4 (witness): the amended boundary at `v = 0`, `k = 65535`, and the
faults-iff-`SP = 0` equivalence at the initial state. -/
theorem push_overflow_boundary_witness :
    (push_repeat 0 65535 init_vm).error = VMError.vm_ok
      ∧ (push_repeat 0 65536 init_vm).error = VMError.stack_overflow
      ∧ ((vm_push init_vm 0).error = VMError.stack_overflow ↔ init_vm.sp = 0) := by
  have h := push_overflow_boundary 0 65535 (by omega) init_vm
  exact ⟨h.1, h.2.2.1, h.2.2.2 rfl⟩

theorem vm_pop_memory (s : VM) : (vm_pop s).2.memory = s.memory := by
  unfold vm_pop
  split <;> rfl

/-- C7 (confirmed): when the divisor popped by `DIV` or `MOD` is 0, the
dispatcher leaves the state exactly as it is after the two pops except
that `error = DIVISION_BY_ZERO`: nothing is pushed, `SP` stays at the
post-pops position, memory is untouched — and the run loop then stops
without executing any further instruction. -/
theorem div_mod_zero_divisor (s : VM) (ctx : PlatformIOContext)
    (hb : (vm_pop s).1 = 0) :
    vm_dispatch s ctx 0x09
        = ({ (vm_pop (vm_pop s).2).2 with error := VMError.division_by_zero }, ctx)
      ∧ vm_dispatch s ctx 0x0A
        = ({ (vm_pop (vm_pop s).2).2 with error := VMError.division_by_zero }, ctx)
      ∧ (vm_pop (vm_pop s).2).2.memory = s.memory
      ∧ (∀ fuel trace i ctx2,
          run_vm_loop fuel trace i (vm_dispatch s ctx 0x09).1 ctx2
            = ((vm_dispatch s ctx 0x09).1, ctx2)) := by
  rcases h1 : vm_pop s with ⟨b, s1⟩
  have hb0 : b = 0 := by rw [h1] at hb; exact hb
  subst hb0
  rcases h2 : vm_pop s1 with ⟨a, s2⟩
  have hdiv : vm_dispatch s ctx 0x09
      = ({ s2 with error := VMError.division_by_zero }, ctx) := by
    rw [vm_dispatch, h1]
    dsimp only
    rw [h2]
    dsimp only
    rw [if_pos rfl]
  have hmod : vm_dispatch s ctx 0x0A
      = ({ s2 with error := VMError.division_by_zero }, ctx) := by
    rw [vm_dispatch, h1]
    dsimp only
    rw [h2]
    dsimp only
    rw [if_pos rfl]
  have hmem : s2.memory = s.memory := by
    have e1 := vm_pop_memory s
    have e2 := vm_pop_memory s1
    rw [h1] at e1
    rw [h2] at e2
    exact e2.trans e1
  refine ⟨hdiv, hmod, hmem, fun fuel trace i ctx2 => ?_⟩
  apply run_vm_loop_stop
  rintro ⟨-, herr⟩
  rw [hdiv] at herr
  exact VMError.noConfusion (show VMError.division_by_zero = VMError.vm_ok from herr)

/-- C7 (witness): `PUSH 5; PUSH 0` then the `DIV` dispatch at the
concrete faulting stack. -/
theorem div_mod_zero_divisor_witness :
    vm_dispatch (vm_push (vm_push init_vm 5) 0) ctx_init 0x09
      = ({ (vm_pop (vm_pop (vm_push (vm_push init_vm 5) 0)).2).2 with
            error := VMError.division_by_zero }, ctx_init) :=
  (div_mod_zero_divisor (vm_push (vm_push init_vm 5) 0) ctx_init (by decide)).1

/-- C9 (counterexample): the claim fails for shift counts ≥ 32.  The C
shift operates on `int`-promoted operands, so such a count is undefined
behaviour (C99 6.5.7p3); the reference platform masks it modulo 32.
With `a = 1` below a count of `32` on the stack, `SHL` behaves as a
shift by 0 and leaves 1 on top — not the 0 the claim requires for every
byte count `b ≥ 8`. -/
theorem shl_count_32_not_zero :
    (vm_dispatch (vm_push (vm_push init_vm 1) 32) ctx_init 0x10).1.sp = 65534
      ∧ vm_top (vm_dispatch (vm_push (vm_push init_vm 1) 32) ctx_init 0x10).1 = 1 :=
  ⟨rfl, rfl⟩

/-- C9 (amended): with a shift count `8 ≤ b ≤ 31` on top of the stack
and `a` below it, both `SHL` and `SHR` push 0: the result is the
logical 8-bit shift truncated to a byte, with no reduction of the count
modulo 8 (the pushed byte lands at `sp + 2`, the new top of stack).
For counts ≥ 32 the C shift is undefined behaviour; the reference
platform masks the count modulo 32. -/
theorem shift_count_8_to_31_zero (s : VM) (ctx : PlatformIOContext) (b : Nat)
    (hsp : s.sp + 2 ≤ 65535)
    (hb : s.memory (s.sp + 1) % 256 = b) (hb8 : 8 ≤ b) (hb31 : b ≤ 31) :
    ((vm_dispatch s ctx 0x10).1.memory (s.sp + 2) = 0
      ∧ (vm_dispatch s ctx 0x10).1.sp = s.sp + 1)
    ∧ ((vm_dispatch s ctx 0x11).1.memory (s.sp + 2) = 0
      ∧ (vm_dispatch s ctx 0x11).1.sp = s.sp + 1) := by
  obtain ⟨k, rfl⟩ : ∃ k, b = 8 + k := ⟨b - 8, by omega⟩
  have hp1 : s.sp < VM_STACK_TOP := by
    show s.sp < 65535
    omega
  have hp2 : ({ s with sp := s.sp + 1 } : VM).sp < VM_STACK_TOP := by
    show s.sp + 1 < 65535
    omega
  have hne : ({ s with sp := s.sp + 1 + 1 } : VM).sp ≠ 0 := by
    show s.sp + 1 + 1 ≠ 0
    omega
  have hm32 : (8 + k) % 32 = 8 + k := Nat.mod_eq_of_lt (by omega)
  have hA : s.memory (s.sp + 1 + 1) % 256 < 256 := Nat.mod_lt _ (by omega)
  constructor
  · rw [vm_dispatch, vm_pop_ok s hp1, hb]
    dsimp only
    rw [vm_pop_ok _ hp2]
    dsimp only
    rw [vm_push_ok _ _ hne]
    dsimp only
    refine ⟨?_, by omega⟩
    rw [show s.sp + 2 = s.sp + 1 + 1 from by omega, updMem_same, hm32]
    rw [Nat.shiftLeft_eq, pow_add]
    rw [show s.memory (s.sp + 1 + 1) % 256 * (2 ^ 8 * 2 ^ k)
          = s.memory (s.sp + 1 + 1) % 256 * 2 ^ k * 256 from by ring]
    exact Nat.mul_mod_left _ 256
  · rw [vm_dispatch, vm_pop_ok s hp1, hb]
    dsimp only
    rw [vm_pop_ok _ hp2]
    dsimp only
    rw [vm_push_ok _ _ hne]
    dsimp only
    refine ⟨?_, by omega⟩
    rw [show s.sp + 2 = s.sp + 1 + 1 from by omega, updMem_same, hm32]
    rw [Nat.shiftRight_eq_div_pow]
    rw [Nat.div_eq_of_lt (lt_of_lt_of_le hA (by
      calc (256 : Nat) = 2 ^ 8 := by norm_num
      _ ≤ 2 ^ (8 + k) := Nat.pow_le_pow_right (by omega) (by omega)))]

/-- C9 (witness): `SHL` and `SHR` with `a = 0xAB` below a shift count of
9 on the stack both leave 0 on top. -/
theorem shift_count_8_to_31_zero_witness :
    (vm_dispatch (vm_push (vm_push init_vm 0xAB) 9) ctx_init 0x10).1.memory 65535 = 0
      ∧ (vm_dispatch (vm_push (vm_push init_vm 0xAB) 9) ctx_init 0x11).1.memory 65535 = 0 := by
  have h := shift_count_8_to_31_zero (vm_push (vm_push init_vm 0xAB) 9) ctx_init 9
    (by decide) (by decide) (by decide) (by decide)
  exact ⟨h.1.1, h.2.1⟩

/-- C10 (confirmed): faulting instructions are not atomic.  A pop from
an empty stack records `STACK_UNDERFLOW` but yields 0 and leaves `SP`
unchanged; `DUP` on an empty stack still performs its two pushes after
the failed pop (writing two zero bytes and moving `SP` to `0xFFFD`), and
`ADD` with a single element still pushes its result after the second pop
fails, rewriting the top byte — state is mutated after the error is
recorded. -/
theorem fault_nonatomic (s : VM) (ctx : PlatformIOContext) :
    (VM_STACK_TOP ≤ s.sp → vm_pop s = (0, { s with error := VMError.stack_underflow }))
    ∧ (s.sp = 65535 →
        (vm_dispatch s ctx 0x04).1.error = VMError.stack_underflow
          ∧ (vm_dispatch s ctx 0x04).1.sp = 65533
          ∧ (vm_dispatch s ctx 0x04).1.memory 65535 = 0
          ∧ (vm_dispatch s ctx 0x04).1.memory 65534 = 0)
    ∧ (s.sp = 65534 →
        (vm_dispatch s ctx 0x06).1.error = VMError.stack_underflow
          ∧ (vm_dispatch s ctx 0x06).1.sp = 65534
          ∧ (vm_dispatch s ctx 0x06).1.memory 65535 = s.memory 65535 % 256) := by
  refine ⟨fun h => vm_pop_underflow s h, fun hsp => ?_, fun hsp => ?_⟩
  · have hu : VM_STACK_TOP ≤ s.sp := by
      show 65535 ≤ s.sp
      omega
    have hne1 : ({ s with error := VMError.stack_underflow } : VM).sp ≠ 0 := by
      show s.sp ≠ 0
      omega
    have hne2 : ({ s with
        memory := updMem s.memory s.sp 0,
        sp := s.sp - 1,
        error := VMError.stack_underflow } : VM).sp ≠ 0 := by
      show s.sp - 1 ≠ 0
      omega
    rw [vm_dispatch, vm_pop_underflow s hu]
    dsimp only
    rw [vm_push_ok _ _ hne1]
    dsimp only
    rw [vm_push_ok _ _ hne2]
    dsimp only
    refine ⟨rfl, by omega, ?_, ?_⟩
    · rw [hsp]
      rw [updMem_other _ _ _ _ (by omega), updMem_same]
    · rw [hsp]
      rw [show (65535 : Nat) - 1 = 65534 from rfl, updMem_same]
  · have hlt : s.sp < VM_STACK_TOP := by
      show s.sp < 65535
      omega
    have hu2 : VM_STACK_TOP ≤ ({ s with sp := s.sp + 1 } : VM).sp := by
      show 65535 ≤ s.sp + 1
      omega
    have hne : ({ s with sp := s.sp + 1, error := VMError.stack_underflow } : VM).sp ≠ 0 := by
      show s.sp + 1 ≠ 0
      omega
    rw [vm_dispatch, vm_pop_ok s hlt]
    dsimp only
    rw [vm_pop_underflow _ hu2]
    dsimp only
    rw [vm_push_ok _ _ hne]
    dsimp only
    refine ⟨rfl, by omega, ?_⟩
    rw [hsp]
    rw [show (65534 : Nat) + 1 = 65535 from rfl, updMem_same]
    omega

/-- Symbolic run of the image `PUSH a; PUSH b; DIV; HALT` from a state
with the standard initial registers: the engine halts with `a / b` on
top of the stack. -/
theorem pp_div_run (s0 : VM) (ctx : PlatformIOContext) (a b : Nat)
    (ha : a < 256) (hb : b < 256) (hb0 : b ≠ 0)
    (hrun : s0.running = true) (herr : s0.error = VMError.vm_ok)
    (hpc : s0.pc = 0) (hsp : s0.sp = 65535)
    (hw : platform_waiting ctx = false)
    (h0 : s0.memory 0 % 256 = 2) (h1 : s0.memory 1 % 256 = a)
    (h2 : s0.memory 2 % 256 = 2) (h3 : s0.memory 3 % 256 = b)
    (h4 : s0.memory 4 % 256 = 9) (h5 : s0.memory 5 % 256 = 1) :
    vm_top (run_vm_loop 5 no_events 0 s0 ctx).1 = a / b
      ∧ (run_vm_loop 5 no_events 0 s0 ctx).1.error = VMError.halt := by
  have hq : a / b < 256 := lt_of_le_of_lt (Nat.div_le_self a b) ha
  have st1 : vm_exec_instr s0 ctx
      = ({ s0 with pc := 2, memory := updMem s0.memory s0.sp a, sp := s0.sp - 1 }, ctx) := by
    unfold vm_exec_instr
    dsimp only
    rw [hpc, h0, vm_dispatch]
    dsimp only
    rw [show (0 + 1) % 65536 = 1 from rfl]
    rw [h1, show (1 + 1) % 65536 = 2 from rfl]
    rw [vm_push_ok _ _ (show ({ s0 with pc := 2 } : VM).sp ≠ 0 from by show s0.sp ≠ 0; omega)]
  have st2 : vm_exec_instr { s0 with
        pc := 2,
        memory := updMem s0.memory s0.sp a,
        sp := s0.sp - 1 } ctx
      = ({ s0 with
            pc := 4,
            memory := updMem (updMem s0.memory s0.sp a) (s0.sp - 1) b,
            sp := s0.sp - 1 - 1 }, ctx) := by
    unfold vm_exec_instr
    dsimp only
    rw [updMem_other _ _ _ _ (show (2 : Nat) ≠ s0.sp from by omega), h2, vm_dispatch]
    dsimp only
    rw [show (2 + 1) % 65536 = 3 from rfl]
    rw [updMem_other _ _ _ _ (show (3 : Nat) ≠ s0.sp from by omega), h3,
      show (3 + 1) % 65536 = 4 from rfl]
    rw [vm_push_ok _ _ (show ({ s0 with
          pc := 4,
          memory := updMem s0.memory s0.sp a,
          sp := s0.sp - 1 } : VM).sp ≠ 0 from by show s0.sp - 1 ≠ 0; omega)]
  have st3 : vm_exec_instr { s0 with
        pc := 4,
        memory := updMem (updMem s0.memory s0.sp a) (s0.sp - 1) b,
        sp := s0.sp - 1 - 1 } ctx
      = ({ s0 with
            pc := 5,
            memory := updMem (updMem (updMem s0.memory s0.sp a) (s0.sp - 1) b) s0.sp (a / b),
            sp := s0.sp - 1 }, ctx) := by
    unfold vm_exec_instr
    dsimp only
    rw [updMem_other _ _ _ _ (show (4 : Nat) ≠ s0.sp - 1 from by omega),
      updMem_other _ _ _ _ (show (4 : Nat) ≠ s0.sp from by omega), h4, vm_dispatch]
    dsimp only
    rw [show (4 + 1) % 65536 = 5 from rfl]
    rw [vm_pop_ok _ (show ({ s0 with
          pc := 5,
          memory := updMem (updMem s0.memory s0.sp a) (s0.sp - 1) b,
          sp := s0.sp - 1 - 1 } : VM).sp < VM_STACK_TOP from by
        show s0.sp - 1 - 1 < 65535
        omega)]
    dsimp only
    rw [show s0.sp - 1 - 1 + 1 = s0.sp - 1 from by omega]
    rw [updMem_same, Nat.mod_eq_of_lt (Nat.mod_lt b (by omega)), Nat.mod_eq_of_lt hb]
    rw [vm_pop_ok _ (show ({ s0 with
          pc := 5,
          memory := updMem (updMem s0.memory s0.sp a) (s0.sp - 1) b,
          sp := s0.sp - 1 } : VM).sp < VM_STACK_TOP from by
        show s0.sp - 1 < 65535
        omega)]
    dsimp only
    rw [show s0.sp - 1 + 1 = s0.sp from by omega]
    rw [updMem_other _ _ _ _ (show s0.sp ≠ s0.sp - 1 from by omega), updMem_same,
      Nat.mod_eq_of_lt (Nat.mod_lt a (by omega)), Nat.mod_eq_of_lt ha]
    rw [if_neg hb0]
    rw [vm_push_ok _ _ (show ({ s0 with
          pc := 5,
          memory := updMem (updMem s0.memory s0.sp a) (s0.sp - 1) b,
          sp := s0.sp } : VM).sp ≠ 0 from by show s0.sp ≠ 0; omega)]
  have st4 : vm_exec_instr { s0 with
        pc := 5,
        memory := updMem (updMem (updMem s0.memory s0.sp a) (s0.sp - 1) b) s0.sp (a / b),
        sp := s0.sp - 1 } ctx
      = ({ s0 with
            pc := 6,
            memory := updMem (updMem (updMem s0.memory s0.sp a) (s0.sp - 1) b) s0.sp (a / b),
            sp := s0.sp - 1,
            running := false,
            error := VMError.halt }, ctx) := by
    unfold vm_exec_instr
    dsimp only
    rw [updMem_other _ _ _ _ (show (5 : Nat) ≠ s0.sp from by omega),
      updMem_other _ _ _ _ (show (5 : Nat) ≠ s0.sp - 1 from by omega),
      updMem_other _ _ _ _ (show (5 : Nat) ≠ s0.sp from by omega), h5, vm_dispatch]
  have run_eq : run_vm_loop 5 no_events 0 s0 ctx
      = ({ s0 with
            pc := 6,
            memory := updMem (updMem (updMem s0.memory s0.sp a) (s0.sp - 1) b) s0.sp (a / b),
            sp := s0.sp - 1,
            running := false,
            error := VMError.halt }, ctx) := by
    rw [show (5 : Nat) = 4 + 1 from rfl,
      run_vm_loop_step 4 no_events 0 s0 ctx hrun herr rfl hw (by rw [hpc]; omega), st1]
    dsimp only
    rw [show (4 : Nat) = 3 + 1 from rfl,
      run_vm_loop_step 3 no_events (0 + 1)
        { s0 with pc := 2, memory := updMem s0.memory s0.sp a, sp := s0.sp - 1 } ctx
        hrun herr rfl hw (show (2 : Nat) < 65536 from by omega), st2]
    dsimp only
    rw [show (3 : Nat) = 2 + 1 from rfl,
      run_vm_loop_step 2 no_events (0 + 1 + 1)
        { s0 with
          pc := 4,
          memory := updMem (updMem s0.memory s0.sp a) (s0.sp - 1) b,
          sp := s0.sp - 1 - 1 } ctx
        hrun herr rfl hw (show (4 : Nat) < 65536 from by omega), st3]
    dsimp only
    rw [show (2 : Nat) = 1 + 1 from rfl,
      run_vm_loop_step 1 no_events (0 + 1 + 1 + 1)
        { s0 with
          pc := 5,
          memory := updMem (updMem (updMem s0.memory s0.sp a) (s0.sp - 1) b) s0.sp (a / b),
          sp := s0.sp - 1 } ctx
        hrun herr rfl hw (show (5 : Nat) < 65536 from by omega), st4]
    dsimp only
    apply run_vm_loop_stop
    rintro ⟨-, he⟩
    exact VMError.noConfusion (show VMError.halt = VMError.vm_ok from he)
  rw [run_eq]
  refine ⟨?_, rfl⟩
  unfold vm_top
  dsimp only
  rw [show s0.sp - 1 + 1 = s0.sp from by omega, updMem_same,
    Nat.mod_eq_of_lt (Nat.mod_lt (a / b) (by omega)), Nat.mod_eq_of_lt hq]

/-- Symbolic run of the image `PUSH a; PUSH b; MOD; HALT`: the engine
halts with `a % b` on top of the stack. -/
theorem pp_mod_run (s0 : VM) (ctx : PlatformIOContext) (a b : Nat)
    (ha : a < 256) (hb : b < 256) (hb0 : b ≠ 0)
    (hrun : s0.running = true) (herr : s0.error = VMError.vm_ok)
    (hpc : s0.pc = 0) (hsp : s0.sp = 65535)
    (hw : platform_waiting ctx = false)
    (h0 : s0.memory 0 % 256 = 2) (h1 : s0.memory 1 % 256 = a)
    (h2 : s0.memory 2 % 256 = 2) (h3 : s0.memory 3 % 256 = b)
    (h4 : s0.memory 4 % 256 = 10) (h5 : s0.memory 5 % 256 = 1) :
    vm_top (run_vm_loop 5 no_events 0 s0 ctx).1 = a % b
      ∧ (run_vm_loop 5 no_events 0 s0 ctx).1.error = VMError.halt := by
  have hq : a % b < 256 := lt_of_le_of_lt (Nat.mod_le a b) ha
  have st1 : vm_exec_instr s0 ctx
      = ({ s0 with pc := 2, memory := updMem s0.memory s0.sp a, sp := s0.sp - 1 }, ctx) := by
    unfold vm_exec_instr
    dsimp only
    rw [hpc, h0, vm_dispatch]
    dsimp only
    rw [show (0 + 1) % 65536 = 1 from rfl]
    rw [h1, show (1 + 1) % 65536 = 2 from rfl]
    rw [vm_push_ok _ _ (show ({ s0 with pc := 2 } : VM).sp ≠ 0 from by show s0.sp ≠ 0; omega)]
  have st2 : vm_exec_instr { s0 with
        pc := 2,
        memory := updMem s0.memory s0.sp a,
        sp := s0.sp - 1 } ctx
      = ({ s0 with
            pc := 4,
            memory := updMem (updMem s0.memory s0.sp a) (s0.sp - 1) b,
            sp := s0.sp - 1 - 1 }, ctx) := by
    unfold vm_exec_instr
    dsimp only
    rw [updMem_other _ _ _ _ (show (2 : Nat) ≠ s0.sp from by omega), h2, vm_dispatch]
    dsimp only
    rw [show (2 + 1) % 65536 = 3 from rfl]
    rw [updMem_other _ _ _ _ (show (3 : Nat) ≠ s0.sp from by omega), h3,
      show (3 + 1) % 65536 = 4 from rfl]
    rw [vm_push_ok _ _ (show ({ s0 with
          pc := 4,
          memory := updMem s0.memory s0.sp a,
          sp := s0.sp - 1 } : VM).sp ≠ 0 from by show s0.sp - 1 ≠ 0; omega)]
  have st3 : vm_exec_instr { s0 with
        pc := 4,
        memory := updMem (updMem s0.memory s0.sp a) (s0.sp - 1) b,
        sp := s0.sp - 1 - 1 } ctx
      = ({ s0 with
            pc := 5,
            memory := updMem (updMem (updMem s0.memory s0.sp a) (s0.sp - 1) b) s0.sp (a % b),
            sp := s0.sp - 1 }, ctx) := by
    unfold vm_exec_instr
    dsimp only
    rw [updMem_other _ _ _ _ (show (4 : Nat) ≠ s0.sp - 1 from by omega),
      updMem_other _ _ _ _ (show (4 : Nat) ≠ s0.sp from by omega), h4, vm_dispatch]
    dsimp only
    rw [show (4 + 1) % 65536 = 5 from rfl]
    rw [vm_pop_ok _ (show ({ s0 with
          pc := 5,
          memory := updMem (updMem s0.memory s0.sp a) (s0.sp - 1) b,
          sp := s0.sp - 1 - 1 } : VM).sp < VM_STACK_TOP from by
        show s0.sp - 1 - 1 < 65535
        omega)]
    dsimp only
    rw [show s0.sp - 1 - 1 + 1 = s0.sp - 1 from by omega]
    rw [updMem_same, Nat.mod_eq_of_lt (Nat.mod_lt b (by omega)), Nat.mod_eq_of_lt hb]
    rw [vm_pop_ok _ (show ({ s0 with
          pc := 5,
          memory := updMem (updMem s0.memory s0.sp a) (s0.sp - 1) b,
          sp := s0.sp - 1 } : VM).sp < VM_STACK_TOP from by
        show s0.sp - 1 < 65535
        omega)]
    dsimp only
    rw [show s0.sp - 1 + 1 = s0.sp from by omega]
    rw [updMem_other _ _ _ _ (show s0.sp ≠ s0.sp - 1 from by omega), updMem_same,
      Nat.mod_eq_of_lt (Nat.mod_lt a (by omega)), Nat.mod_eq_of_lt ha]
    rw [if_neg hb0]
    rw [vm_push_ok _ _ (show ({ s0 with
          pc := 5,
          memory := updMem (updMem s0.memory s0.sp a) (s0.sp - 1) b,
          sp := s0.sp } : VM).sp ≠ 0 from by show s0.sp ≠ 0; omega)]
  have st4 : vm_exec_instr { s0 with
        pc := 5,
        memory := updMem (updMem (updMem s0.memory s0.sp a) (s0.sp - 1) b) s0.sp (a % b),
        sp := s0.sp - 1 } ctx
      = ({ s0 with
            pc := 6,
            memory := updMem (updMem (updMem s0.memory s0.sp a) (s0.sp - 1) b) s0.sp (a % b),
            sp := s0.sp - 1,
            running := false,
            error := VMError.halt }, ctx) := by
    unfold vm_exec_instr
    dsimp only
    rw [updMem_other _ _ _ _ (show (5 : Nat) ≠ s0.sp from by omega),
      updMem_other _ _ _ _ (show (5 : Nat) ≠ s0.sp - 1 from by omega),
      updMem_other _ _ _ _ (show (5 : Nat) ≠ s0.sp from by omega), h5, vm_dispatch]
  have run_eq : run_vm_loop 5 no_events 0 s0 ctx
      = ({ s0 with
            pc := 6,
            memory := updMem (updMem (updMem s0.memory s0.sp a) (s0.sp - 1) b) s0.sp (a % b),
            sp := s0.sp - 1,
            running := false,
            error := VMError.halt }, ctx) := by
    rw [show (5 : Nat) = 4 + 1 from rfl,
      run_vm_loop_step 4 no_events 0 s0 ctx hrun herr rfl hw (by rw [hpc]; omega), st1]
    dsimp only
    rw [show (4 : Nat) = 3 + 1 from rfl,
      run_vm_loop_step 3 no_events (0 + 1)
        { s0 with pc := 2, memory := updMem s0.memory s0.sp a, sp := s0.sp - 1 } ctx
        hrun herr rfl hw (show (2 : Nat) < 65536 from by omega), st2]
    dsimp only
    rw [show (3 : Nat) = 2 + 1 from rfl,
      run_vm_loop_step 2 no_events (0 + 1 + 1)
        { s0 with
          pc := 4,
          memory := updMem (updMem s0.memory s0.sp a) (s0.sp - 1) b,
          sp := s0.sp - 1 - 1 } ctx
        hrun herr rfl hw (show (4 : Nat) < 65536 from by omega), st3]
    dsimp only
    rw [show (2 : Nat) = 1 + 1 from rfl,
      run_vm_loop_step 1 no_events (0 + 1 + 1 + 1)
        { s0 with
          pc := 5,
          memory := updMem (updMem (updMem s0.memory s0.sp a) (s0.sp - 1) b) s0.sp (a % b),
          sp := s0.sp - 1 } ctx
        hrun herr rfl hw (show (5 : Nat) < 65536 from by omega), st4]
    dsimp only
    apply run_vm_loop_stop
    rintro ⟨-, he⟩
    exact VMError.noConfusion (show VMError.halt = VMError.vm_ok from he)
  rw [run_eq]
  refine ⟨?_, rfl⟩
  unfold vm_top
  dsimp only
  rw [show s0.sp - 1 + 1 = s0.sp from by omega, updMem_same,
    Nat.mod_eq_of_lt (Nat.mod_lt (a % b) (by omega)), Nat.mod_eq_of_lt hq]

/-- C8 (confirmed): for all bytes `a`, `b` with `b ≠ 0`, running
`PUSH a; PUSH b; DIV` yields quotient `q = a / b` and
`PUSH a; PUSH b; MOD` yields remainder `r = a % b`, and
`q * b + r ≡ a (mod 256)`. -/
theorem div_mod_reconstruction (a b : Nat) (ha : a < 256) (hb : b < 256) (hb0 : b ≠ 0) :
    vm_top (run_vm_loop 5 no_events 0
        (load_list init_vm [0x02, a, 0x02, b, 0x09, 0x01]) ctx_init).1 = a / b
    ∧ vm_top (run_vm_loop 5 no_events 0
        (load_list init_vm [0x02, a, 0x02, b, 0x0A, 0x01]) ctx_init).1 = a % b
    ∧ (vm_top (run_vm_loop 5 no_events 0
          (load_list init_vm [0x02, a, 0x02, b, 0x09, 0x01]) ctx_init).1 * b
        + vm_top (run_vm_loop 5 no_events 0
          (load_list init_vm [0x02, a, 0x02, b, 0x0A, 0x01]) ctx_init).1) % 256
      = a % 256 := by
  have hdiv := (pp_div_run (load_list init_vm [2, a, 2, b, 9, 1]) ctx_init a b ha hb hb0
    rfl rfl rfl rfl rfl
    (by simp [load_list, init_vm, List.getD, VM_MEMORY_SIZE])
    (by simp [load_list, init_vm, List.getD, VM_MEMORY_SIZE]; omega)
    (by simp [load_list, init_vm, List.getD, VM_MEMORY_SIZE])
    (by simp [load_list, init_vm, List.getD, VM_MEMORY_SIZE]; omega)
    (by simp [load_list, init_vm, List.getD, VM_MEMORY_SIZE])
    (by simp [load_list, init_vm, List.getD, VM_MEMORY_SIZE])).1
  have hmod := (pp_mod_run (load_list init_vm [2, a, 2, b, 10, 1]) ctx_init a b ha hb hb0
    rfl rfl rfl rfl rfl
    (by simp [load_list, init_vm, List.getD, VM_MEMORY_SIZE])
    (by simp [load_list, init_vm, List.getD, VM_MEMORY_SIZE]; omega)
    (by simp [load_list, init_vm, List.getD, VM_MEMORY_SIZE])
    (by simp [load_list, init_vm, List.getD, VM_MEMORY_SIZE]; omega)
    (by simp [load_list, init_vm, List.getD, VM_MEMORY_SIZE])
    (by simp [load_list, init_vm, List.getD, VM_MEMORY_SIZE])).1
  refine ⟨hdiv, hmod, ?_⟩
  rw [hdiv, hmod, Nat.mul_comm, Nat.div_add_mod]

/-- C8 (witness): the reconstruction at `a = 17`, `b = 5` — the runs
leave 3 and 2 on top of the stack. -/
theorem div_mod_reconstruction_witness :
    vm_top (run_vm_loop 5 no_events 0
        (load_list init_vm [0x02, 17, 0x02, 5, 0x09, 0x01]) ctx_init).1 = 3
    ∧ vm_top (run_vm_loop 5 no_events 0
        (load_list init_vm [0x02, 17, 0x02, 5, 0x0A, 0x01]) ctx_init).1 = 2 := by
  have h := div_mod_reconstruction 17 5 (by decide) (by decide) (by decide)
  exact ⟨h.1, h.2.1⟩

/-- C1 (confirmed): CALL and RET mirror.  Executing `CALL addr` whose
opcode byte is at `p` pushes the return address `p + 3` low byte first
then high byte (low at `s.sp`, high at `s.sp - 1`) and jumps to the
little-endian operand; executing `RET` in any later state with a
balanced stack — `SP` back at `s.sp - 2` and the two pushed bytes still
in place — pops the high byte first, then the low byte, and sets `PC`
to `p + 3`, the instruction immediately following the 3-byte `CALL`. -/
theorem call_ret_mirror (s t : VM) (ctx ctx2 : PlatformIOContext) (p : Nat)
    (hok : s.error = VMError.vm_ok)
    (hpc : s.pc = p)
    (hop : s.memory p % 256 = 0x1F)
    (hp3 : p + 3 < 65536)
    (hsp2 : 2 ≤ s.sp) (hsp_hi : s.sp ≤ 65535)
    (hret_op : t.memory t.pc % 256 = 0x20)
    (hterr : t.error = VMError.vm_ok)
    (ht_sp : t.sp = s.sp - 2)
    (ht_hi : t.memory (t.sp + 1) % 256 = (p + 3) / 256)
    (ht_lo : t.memory (t.sp + 2) % 256 = (p + 3) % 256) :
    ((vm_exec_instr s ctx).1.error = VMError.vm_ok
      ∧ (vm_exec_instr s ctx).1.pc
          = s.memory (p + 1) % 256 + s.memory (p + 2) % 256 * 256
      ∧ (vm_exec_instr s ctx).1.sp = s.sp - 2
      ∧ (vm_exec_instr s ctx).1.memory s.sp = (p + 3) % 256
      ∧ (vm_exec_instr s ctx).1.memory (s.sp - 1) = (p + 3) / 256)
    ∧ ((vm_exec_instr t ctx2).1.pc = p + 3
      ∧ (vm_exec_instr t ctx2).1.sp = s.sp
      ∧ (vm_exec_instr t ctx2).1.error = VMError.vm_ok) := by
  constructor
  · have hm1 : (p + 1) % 65536 = p + 1 := Nat.mod_eq_of_lt (by omega)
    have hrd : p + 1 < VM_MEMORY_SIZE - 1 := by
      show p + 1 < 65535
      omega
    have hne1 : ({ s with pc := (p + 1 + 2) % 65536 } : VM).sp ≠ 0 := by
      show s.sp ≠ 0
      omega
    have hne2 : ({ s with
        pc := (p + 1 + 2) % 65536,
        memory := updMem s.memory s.sp (((p + 1 + 2) % 65536) % 256),
        sp := s.sp - 1 } : VM).sp ≠ 0 := by
      show s.sp - 1 ≠ 0
      omega
    unfold vm_exec_instr
    dsimp only
    rw [hpc, hop, hm1, vm_dispatch]
    rw [vm_read16_ok _ _ hrd]
    dsimp only
    rw [vm_push_ok _ _ hne1]
    dsimp only
    rw [vm_push_ok _ _ hne2]
    dsimp only
    have hm3 : (p + 1 + 2) % 65536 = p + 3 := by
      rw [Nat.mod_eq_of_lt (by omega)]
    rw [hm3]
    refine ⟨hok, ?_, by omega, ?_, ?_⟩
    · rw [show p + 1 + 1 = p + 2 from by omega]
    · rw [updMem_other _ _ _ _ (by omega), updMem_same]
      omega
    · rw [updMem_same]
      omega
  · have e1 : ({ t with pc := (t.pc + 1) % 65536 } : VM).sp < VM_STACK_TOP := by
      show t.sp < 65535
      omega
    have e2 : ({ t with pc := (t.pc + 1) % 65536, sp := t.sp + 1 } : VM).sp < VM_STACK_TOP := by
      show t.sp + 1 < 65535
      omega
    unfold vm_exec_instr
    dsimp only
    rw [hret_op, vm_dispatch]
    rw [vm_pop_ok _ e1]
    dsimp only
    rw [vm_pop_ok _ e2]
    dsimp only
    rw [ht_hi, show t.sp + 1 + 1 = t.sp + 2 from by omega, ht_lo]
    exact ⟨by omega, by omega, hterr⟩

/-- C1 (witness): the concrete image `CALL 5; HALT; -; RET` — the CALL
at 0 pushes return address 3 and jumps to 5, and the RET from the state
the CALL produced (with `PC` moved to the subroutine) returns to 3. -/
theorem call_ret_mirror_witness :
    ((vm_exec_instr (load_list init_vm [0x1F, 5, 0, 0x01, 0, 0x20]) ctx_init).1.pc = 5
      ∧ (vm_exec_instr (load_list init_vm [0x1F, 5, 0, 0x01, 0, 0x20]) ctx_init).1.sp = 65533)
    ∧ (vm_exec_instr
        { (vm_exec_instr (load_list init_vm [0x1F, 5, 0, 0x01, 0, 0x20]) ctx_init).1 with
            pc := 5 } ctx_init).1.pc = 3 := by
  have h := call_ret_mirror (load_list init_vm [0x1F, 5, 0, 0x01, 0, 0x20])
    { (vm_exec_instr (load_list init_vm [0x1F, 5, 0, 0x01, 0, 0x20]) ctx_init).1 with pc := 5 }
    ctx_init ctx_init 0
    (by decide) (by decide) (by decide) (by decide) (by decide) (by decide)
    (by decide) (by decide) (by decide) (by decide) (by decide)
  refine ⟨⟨?_, ?_⟩, h.2.1⟩
  · rw [h.1.2.1]
    decide
  · rw [h.1.2.2.1]
    decide

/-- C10 (witness): the non-atomic faults at the initial (empty-stack)
state and after a single push. -/
theorem fault_nonatomic_witness :
    vm_pop init_vm = (0, { init_vm with error := VMError.stack_underflow })
      ∧ (vm_dispatch init_vm ctx_init 0x04).1.error = VMError.stack_underflow
      ∧ (vm_dispatch init_vm ctx_init 0x04).1.sp = 65533
      ∧ (vm_dispatch (vm_push init_vm 7) ctx_init 0x06).1.error = VMError.stack_underflow
      ∧ (vm_dispatch (vm_push init_vm 7) ctx_init 0x06).1.memory 65535 = 7 := by
  have h1 := fault_nonatomic init_vm ctx_init
  have h2 := fault_nonatomic (vm_push init_vm 7) ctx_init
  refine ⟨h1.1 (by decide), (h1.2.1 (by decide)).1, (h1.2.1 (by decide)).2.1,
    (h2.2.2 (by decide)).1, ?_⟩
  rw [(h2.2.2 (by decide)).2.2]
  decide

end KXN
